import Mathlib

/-!
Verification of the spec-kit CLI core (`src/specify_cli/__init__.py`) against its
natural-language specification.

The development shallowly embeds the pure logic of the Python source:

* `githubToken` / `githubAuthHeaders`   — lines 57-64 (token resolution);
* `selectTemplateAsset`                 — lines 858-872 (release-asset selection);
* `extractTemplatePhase`                — lines 1054-1169 (extraction failure/cleanup path);
* `trackerAdd` / `trackerUpdate`        — StepTracker, lines 365-392;
* `classifyProjectState`                — lines 156-285 (project-state classifier);
* `walkOrder` / `scanDirFiles` / `walkDirs` — `_scan_project_state`, lines 123-153;
* `newScriptMode` / `updatedCount`      — `ensure_executable_scripts`, lines 1174-1209.

Python strings are Lean `String`s, machine integers are `Nat`/`Int`, Python floats
that only ever hold multiples of 1/100 are embedded as `ℚ`, optional values are
`Option`, and raised exceptions are `Except.error` / `Option.none`.
-/

namespace SpecKit

/-! ## String primitives

Python's `str.strip()`, `str.lower()`, `str.endswith(t)` and `t in s` are embedded
structurally over the character list of a `String` (the built-in `String.trim`,
`String.toLower` and `String.endsWith` are extensionally the same on the ASCII
inputs that matter here, but their byte-position loops are opaque to the kernel). -/

def pyStrip (s : String) : String :=
  String.mk (((s.data.dropWhile Char.isWhitespace).reverse.dropWhile Char.isWhitespace).reverse)

def pyLower (s : String) : String :=
  String.mk (s.data.map Char.toLower)

def strEndsWith (s suffix : String) : Bool :=
  decide (suffix.data <:+ s.data)

/-! ## GitHub token resolution (lines 57-64)

`cli_token`, `GH_TOKEN` and `GITHUB_TOKEN` enter as strings where `""` stands for
both Python `None` and the empty string (the two are indistinguishable through
`or`-chains and `strip`).  Python `a or b` on strings is `if a ≠ "" then a else b`;
`str.strip()` is `pyStrip`. -/

def githubToken (cliToken ghToken githubTokenEnv : String) : Option String :=
  let raw :=
    if cliToken ≠ "" then cliToken
    else if ghToken ≠ "" then ghToken
    else if githubTokenEnv ≠ "" then githubTokenEnv
    else ""
  let stripped := pyStrip raw
  if stripped = "" then none else some stripped

def githubAuthHeaders (cliToken ghToken githubTokenEnv : String) : List (String × String) :=
  match githubToken cliToken ghToken githubTokenEnv with
  | some t => [("Authorization", "Bearer " ++ t)]
  | none => []

/-! ## Release-asset selection (lines 858-872)

`pattern in asset["name"]` is substring containment, `asset["name"].endswith(".zip")`
is `strEndsWith`.  `matching_assets[0] if matching_assets else None` is `head?`;
`none` models the `typer.Exit(1)` raised when no asset matches. -/

structure ReleaseAsset where
  name : String
  browserDownloadUrl : String
  size : Nat
deriving Repr, DecidableEq, Inhabited

def templatePattern (aiAssistant scriptType : String) : String :=
  "spec-kit-template-" ++ aiAssistant ++ "-" ++ scriptType

def assetNameContains (asset : ReleaseAsset) (pattern : String) : Bool :=
  decide (pattern.data <:+: asset.name.data)

def matchingAssets (assets : List ReleaseAsset) (aiAssistant scriptType : String) :
    List ReleaseAsset :=
  assets.filter fun a =>
    assetNameContains a (templatePattern aiAssistant scriptType) && strEndsWith a.name ".zip"

def selectTemplateAsset (assets : List ReleaseAsset) (aiAssistant scriptType : String) :
    Option ReleaseAsset :=
  (matchingAssets assets aiAssistant scriptType).head?

/-! ## Extraction failure path of `download_and_extract_template` (lines 1054-1169)

The filesystem is abstracted to the two facts the exception handler inspects: does
the target project directory exist, and does the downloaded archive still exist.
The body of the `try` block is an oracle `attempt`: `Except.ok` is a successful
extraction, `Except.error (e, fs)` is an extraction failure raising message `e`
with the filesystem left in state `fs`.  The handler (lines 1145-1156) removes the
target for a non-current-directory install when it exists; the `finally` block
(lines 1160-1169) removes the archive. -/

structure FsState where
  targetExists : Bool
  zipExists : Bool
deriving Repr, DecidableEq, Inhabited

def removeZip (fs : FsState) : FsState :=
  if fs.zipExists then { fs with zipExists := false } else fs

def extractTemplatePhase (isCurrentDir : Bool) (attempt : Except (String × FsState) FsState) :
    Option String × FsState :=
  match attempt with
  | Except.ok fs => (none, removeZip fs)
  | Except.error (e, fs) =>
    let fs := if !isCurrentDir && fs.targetExists then { fs with targetExists := false } else fs
    (some e, removeZip fs)

/-! ## StepTracker (lines 352-399)

A tracker is its ordered list of steps; statuses are the literal Python strings.
`_update` updates the first step with the given key, overwriting `detail` only when
the new detail is non-empty, and appends a fresh step (label = key) when the key is
absent.  The refresh callback is pure UI and carries no state. -/

structure TrackedStep where
  key : String
  label : String
  status : String
  detail : String
deriving Repr, DecidableEq, Inhabited

def trackerAdd (steps : List TrackedStep) (key label : String) : List TrackedStep :=
  if key ∈ steps.map TrackedStep.key then steps
  else steps ++ [⟨key, label, "pending", ""⟩]

def trackerUpdate : List TrackedStep → String → String → String → List TrackedStep
  | [], key, status, detail => [⟨key, key, status, detail⟩]
  | s :: rest, key, status, detail =>
    if s.key = key then
      ⟨s.key, s.label, status, if detail ≠ "" then detail else s.detail⟩ :: rest
    else
      s :: trackerUpdate rest key status detail

def trackerStart (steps : List TrackedStep) (key : String) (detail : String) :
    List TrackedStep :=
  trackerUpdate steps key "running" detail

def trackerComplete (steps : List TrackedStep) (key : String) (detail : String) :
    List TrackedStep :=
  trackerUpdate steps key "done" detail

def trackerError (steps : List TrackedStep) (key : String) (detail : String) :
    List TrackedStep :=
  trackerUpdate steps key "error" detail

/-! ## Project-state classifier (lines 83-107 constants, 156-285 logic)

`git_commits` is obtained by the source from a `git` subprocess with every failure
mapped to 0; it enters the embedding as a field of the scan statistics.  The float
`confidence` only ever holds multiples of 1/20 (plus the constants 0.98, 0.99),
so `ℚ` reproduces `int(round(confidence * 100))` exactly. -/

def VALID_PROJECT_TYPES : List String := ["auto", "greenfield", "brownfield", "ongoing"]

def SCAN_EXCLUDE_DIRS : List String :=
  [".git", ".specify", "__pycache__", "node_modules", ".venv", ".idea", ".vscode"]

def CONFIG_FILE_MARKERS : List String :=
  ["package.json", "pnpm-lock.yaml", "yarn.lock", "pyproject.toml", "requirements.txt",
   "composer.json", "Gemfile", "Cargo.toml", "go.mod", "pom.xml", "build.gradle",
   "Dockerfile", "docker-compose.yml", "next.config.js", "vite.config.js",
   "vite.config.ts", "tsconfig.json", "Makefile"]

def MAX_CLASSIFICATION_SCAN : Nat := 800

structure ScanStats where
  fileCount : Nat
  gitCommits : Nat
  configHits : List String
  samplePaths : List String
  hasSpecify : Bool
  hasSpecsDir : Bool
deriving Repr, DecidableEq, Inhabited

structure Verdict where
  projectType : String
  confidence : ℚ
  reason : String
  stats : ScanStats
  signals : List String
  safeguardRequired : Bool
  requiresConfirmation : Bool
  overrideOrigin : Option String := none
  confidenceScore : ℤ := 0
  migrationRecommendations : List String := []
  overrideApplied : Bool := false
  existingFilesCount : Nat := 0
  warnings : List String := []
deriving Repr, DecidableEq, Inhabited

/-- `(override or "auto").lower()`, line 157 (`""` stands for Python `None` or `""`). -/
def normalizeOverride (override : String) : String :=
  pyLower (if override = "" then "auto" else override)

/-- Lines 166-175: the target directory does not exist.  The source's short-circuit
stats dict carries only zeroed counters; the unused fields are zeroed too. -/
def detectAbsent : Verdict :=
  { projectType := "greenfield"
    confidence := 98/100
    reason := "target directory does not exist yet"
    stats := { fileCount := 0, gitCommits := 0, configHits := [], samplePaths := [],
               hasSpecify := false, hasSpecsDir := false }
    signals := ["Target directory absent: treating as new project"]
    safeguardRequired := false
    requiresConfirmation := false }

/-- Lines 184-190: baseline then threshold upgrades. -/
def autoTypeOf (scan : ScanStats) : String :=
  let base := if scan.hasSpecify || scan.hasSpecsDir then "ongoing" else "greenfield"
  if 20 ≤ scan.gitCommits ∨ 2 ≤ scan.configHits.length ∨ 120 ≤ scan.fileCount then
    "brownfield"
  else if base ≠ "ongoing" ∧ (1 ≤ scan.gitCommits ∨ 1 ≤ scan.configHits.length ∨ 12 ≤ scan.fileCount) then
    "ongoing"
  else base

/-- Lines 192-209: per-type confidence. -/
def confidenceOf (scan : ScanStats) : ℚ :=
  let t := autoTypeOf scan
  if t = "greenfield" then
    if scan.fileCount = 0 then 95/100 else 8/10
  else if t = "ongoing" then
    min ((65:ℚ)/100 + (5:ℚ)/100 * (min scan.gitCommits 4 : ℕ)
          + (5:ℚ)/100 * (min scan.configHits.length 2 : ℕ)
          + (if scan.hasSpecify then (1:ℚ)/10 else 0)) ((9:ℚ)/10)
  else if t = "brownfield" then
    min ((7:ℚ)/10 + (if 20 ≤ scan.gitCommits then (1:ℚ)/10 else 0)
          + (if 2 ≤ scan.configHits.length then (1:ℚ)/10 else 0)
          + (if 120 ≤ scan.fileCount then (5:ℚ)/100 else 0)) ((98:ℚ)/100)
  else (75:ℚ)/100

/-- Lines 228-238: heuristic evidence strings, in the source's append order. -/
def signalsOf (scan : ScanStats) : List String :=
  ["Files detected: " ++ toString scan.fileCount]
  ++ (if scan.gitCommits ≠ 0 then ["Git commits detected: " ++ toString scan.gitCommits] else [])
  ++ (if scan.configHits ≠ [] then
        ["Config markers: " ++ String.intercalate ", " (scan.configHits.take 4)
          ++ (if 4 < scan.configHits.length then " …" else "")]
      else [])
  ++ (if scan.hasSpecify then ["Existing .specify directory present"] else [])
  ++ (if scan.hasSpecsDir then ["Existing specs/ directory present"] else [])

/-- Lines 177-238: heuristic verdict for an existing directory (`path_exists` is
true on this branch, so `path_exists and file_count > 0 and ...` loses its first
conjunct). -/
def detectHeuristic (scan : ScanStats) : Verdict :=
  { projectType := autoTypeOf scan
    confidence := confidenceOf scan
    reason := "heuristic analysis"
    stats := scan
    signals := signalsOf scan
    safeguardRequired := autoTypeOf scan == "brownfield"
    requiresConfirmation := decide (0 < scan.fileCount) && (autoTypeOf scan != "greenfield") }

/-- Lines 241-248: the override block, `n` being the normalized override string. -/
def applyOverride (d : Verdict) (n : String) : Verdict :=
  { d with
    signals := d.signals ++ ["Manual override requested: " ++ n]
    overrideOrigin := some n
    projectType := n
    confidence := 99/100
    reason := "manual override"
    requiresConfirmation := d.requiresConfirmation || (n == "brownfield" || n == "ongoing")
    safeguardRequired := n == "brownfield" }

/-- Lines 250-261: static recommendation lists keyed on the final project type. -/
def recommendationsFor (projectType : String) : List String :=
  if projectType == "brownfield" then
    ["Create a backup branch before initializing templates",
     "Document mapping between existing architecture and Spec Kit artifacts",
     "Review dependency versions to avoid template overwrites"]
  else if projectType == "ongoing" then
    ["Align new artifacts with existing feature directories",
     "Verify SPECIFY_FEATURE matches current working branch"]
  else []

/-- Lines 263-280: the derived-field update followed by the warning checks (the
wall-clock `analysis_timestamp` is IO and carries no logic; it is omitted). -/
def finalizeVerdict (pathExists : Bool) (overrideApplied : Bool) (d : Verdict) : Verdict :=
  let d := { d with
    confidenceScore := round (d.confidence * 100)
    migrationRecommendations := recommendationsFor d.projectType
    overrideApplied := overrideApplied
    existingFilesCount := if pathExists then d.stats.fileCount else 0 }
  let warnings :=
    (if d.projectType == "brownfield" && d.stats.gitCommits == 0 then
       ["Significant file volume without git history detected"] else [])
    ++ (if d.projectType == "greenfield" && decide (0 < d.existingFilesCount) then
          ["Non-empty directory classified as greenfield; review before proceeding"] else [])
    ++ (if overrideApplied then ["Project type forced via --project-type"] else [])
  { d with warnings := warnings }

/-- Lines 156-285: `classify_project_state`.  The filesystem enters as the flag
`pathExists` plus the scan statistics of the directory; `Except.error` models the
`typer.BadParameter` raised on an unrecognized override. -/
def classifyProjectState (pathExists : Bool) (scan : ScanStats) (override : String) :
    Except String Verdict :=
  if normalizeOverride override ∈ VALID_PROJECT_TYPES then
    Except.ok (finalizeVerdict pathExists (normalizeOverride override != "auto")
      (if normalizeOverride override != "auto" then
        applyOverride (if pathExists then detectHeuristic scan else detectAbsent)
          (normalizeOverride override)
      else if pathExists then detectHeuristic scan else detectAbsent))
  else
    Except.error ("Invalid project type " ++ override)

/-! ## The bounded directory scan, `_scan_project_state` (lines 123-153)

A directory tree is a rose tree of file names and named subdirectories.  `walkOrder`
is the top-down `os.walk` sequence after the `dirs[:] = [d for d in dirs if d not in
SCAN_EXCLUDE_DIRS]` pruning; `scanDirFiles` is the inner file loop with the cap
break, `walkDirs` the outer loop with its cap break. -/

inductive DirTree where
  | node (files : List String) (subdirs : List (String × DirTree))
deriving Repr, Inhabited

def relPathStr (rel : List String) (name : String) : String :=
  String.intercalate "/" (rel ++ [name])

mutual

def walkOrder (rel : List String) : DirTree → List (List String × List String)
  | DirTree.node files subdirs => (rel, files) :: walkSubs rel subdirs

def walkSubs (rel : List String) : List (String × DirTree) → List (List String × List String)
  | [] => []
  | (name, sub) :: rest =>
    (if name ∈ SCAN_EXCLUDE_DIRS then [] else walkOrder (rel ++ [name]) sub)
      ++ walkSubs rel rest

end

structure ScanAcc where
  fileCount : Nat
  configHits : List String
  samplePaths : List String
deriving Repr, DecidableEq, Inhabited

/-- Lines 129-138: the per-directory file loop.  The 800th file is still recorded
before the `break` fires. -/
def scanDirFiles (acc : ScanAcc) (rel : List String) : List String → ScanAcc
  | [] => acc
  | name :: rest =>
    let fileCount := acc.fileCount + 1
    let samplePaths :=
      if acc.samplePaths.length < 6 then acc.samplePaths ++ [relPathStr rel name]
      else acc.samplePaths
    let configHits :=
      if name ∈ CONFIG_FILE_MARKERS ∧ acc.configHits.length < 12 then
        acc.configHits ++ [relPathStr rel name]
      else acc.configHits
    let acc := ScanAcc.mk fileCount configHits samplePaths
    if MAX_CLASSIFICATION_SCAN ≤ acc.fileCount then acc
    else scanDirFiles acc rel rest

/-- Lines 127-140: the `os.walk` loop; the outer `break` abandons the rest of the
walk once the cap is reached. -/
def walkDirs (acc : ScanAcc) : List (List String × List String) → ScanAcc
  | [] => acc
  | (rel, files) :: rest =>
    let acc := scanDirFiles acc rel files
    if MAX_CLASSIFICATION_SCAN ≤ acc.fileCount then acc
    else walkDirs acc rest

/-- `(project_path / name).exists()` for a top-level entry: a file or a directory
of that name. -/
def hasTopLevelEntry (t : DirTree) (name : String) : Bool :=
  match t with
  | DirTree.node files subdirs => files.contains name || (subdirs.map Prod.fst).contains name

/-- Lines 123-153: `_scan_project_state`.  `gitCommits` is the result of the
`_safe_git_commit_count` subprocess (0 on any failure). -/
def scanProjectState (t : DirTree) (gitCommits : Nat) : ScanStats :=
  let acc := walkDirs (ScanAcc.mk 0 [] []) (walkOrder [] t)
  { fileCount := acc.fileCount
    gitCommits := gitCommits
    configHits := acc.configHits
    samplePaths := acc.samplePaths
    hasSpecify := hasTopLevelEntry t ".specify"
    hasSpecsDir := hasTopLevelEntry t "specs" }

/-- Total number of files the pruned walk visits (no cap). -/
def walkFileTotal (t : DirTree) : Nat :=
  ((walkOrder [] t).map fun p => p.2.length).sum

/-! ## `ensure_executable_scripts` (lines 1174-1209)

A candidate file carries the facts the loop inspects: its name (the `rglob("*.sh")`
filter), symlink/regular-file status, leading bytes, and POSIX mode bits. -/

structure ScriptFile where
  name : String
  isSymlink : Bool
  isFile : Bool
  content : List Nat
  mode : Nat
deriving Repr, DecidableEq, Inhabited

def shebangBytes : List Nat := [35, 33]

/-- Lines 1183-1195: a file is chmodded iff `rglob("*.sh")` yields it, it is a
regular non-symlink file, it starts with `#!`, and no execute bit is set. -/
def scriptNeedsChmod (f : ScriptFile) : Bool :=
  strEndsWith f.name ".sh" && !f.isSymlink && f.isFile
    && decide (f.content.take 2 = shebangBytes) && decide (f.mode &&& 0o111 = 0)

/-- Lines 1196-1201: mirror each read bit onto its execute bit, then force
owner-execute. -/
def newScriptMode (mode : Nat) : Nat :=
  let m := if mode &&& 0o400 ≠ 0 then mode ||| 0o100 else mode
  let m := if mode &&& 0o040 ≠ 0 then m ||| 0o010 else m
  let m := if mode &&& 0o004 ≠ 0 then m ||| 0o001 else m
  if m &&& 0o100 = 0 then m ||| 0o100 else m

/-- The mode a candidate file carries after the loop body ran on it. -/
def chmodResult (f : ScriptFile) : ScriptFile :=
  if scriptNeedsChmod f then { f with mode := newScriptMode f.mode } else f

/-- Lines 1182-1203: the `updated` counter over the walked files. -/
def updatedCount (files : List ScriptFile) : Nat :=
  files.foldl (fun n f => if scriptNeedsChmod f then n + 1 else n) 0

/-! ## Concrete inputs used by witnesses and counterexamples -/

def brownScan : ScanStats :=
  { fileCount := 3, gitCommits := 25, configHits := [], samplePaths := [],
    hasSpecify := false, hasSpecsDir := false }

def emptyScan : ScanStats :=
  { fileCount := 0, gitCommits := 0, configHits := [], samplePaths := [],
    hasSpecify := false, hasSpecsDir := false }

def flatTree5000 : DirTree := DirTree.node (List.replicate 5000 "file.txt") []

def sampleAssets : List ReleaseAsset :=
  [⟨"spec-kit-other-claude-sh.zip", "u0", 1⟩,
   ⟨"spec-kit-template-claude-sh-v1.zip", "u1", 2⟩,
   ⟨"spec-kit-template-claude-sh-v2.zip", "u2", 3⟩]

def txtShebangFile : ScriptFile :=
  { name := "run.txt", isSymlink := false, isFile := true,
    content := [35, 33, 47], mode := 0o644 }

def shShebangFile : ScriptFile :=
  { name := "run.sh", isSymlink := false, isFile := true,
    content := [35, 33, 47], mode := 0o640 }

def verdictOf (pathExists : Bool) (scan : ScanStats) (override : String) : Verdict :=
  (classifyProjectState pathExists scan override).toOption.getD default

/-! ## Projection lemmas for the classifier pipeline -/

theorem finalizeVerdict_projectType (pe app : Bool) (d : Verdict) :
    (finalizeVerdict pe app d).projectType = d.projectType := rfl

theorem finalizeVerdict_safeguardRequired (pe app : Bool) (d : Verdict) :
    (finalizeVerdict pe app d).safeguardRequired = d.safeguardRequired := rfl

theorem finalizeVerdict_confidence (pe app : Bool) (d : Verdict) :
    (finalizeVerdict pe app d).confidence = d.confidence := rfl

theorem finalizeVerdict_confidenceScore (pe app : Bool) (d : Verdict) :
    (finalizeVerdict pe app d).confidenceScore = round (d.confidence * 100) := rfl

theorem finalizeVerdict_overrideApplied (pe app : Bool) (d : Verdict) :
    (finalizeVerdict pe app d).overrideApplied = app := rfl

theorem finalizeVerdict_overrideOrigin (pe app : Bool) (d : Verdict) :
    (finalizeVerdict pe app d).overrideOrigin = d.overrideOrigin := rfl

theorem applyOverride_projectType (d : Verdict) (n : String) :
    (applyOverride d n).projectType = n := rfl

theorem applyOverride_safeguardRequired (d : Verdict) (n : String) :
    (applyOverride d n).safeguardRequired = (n == "brownfield") := rfl

theorem applyOverride_confidence (d : Verdict) (n : String) :
    (applyOverride d n).confidence = 99/100 := rfl

theorem applyOverride_overrideOrigin (d : Verdict) (n : String) :
    (applyOverride d n).overrideOrigin = some n := rfl

theorem detectHeuristic_projectType (scan : ScanStats) :
    (detectHeuristic scan).projectType = autoTypeOf scan := rfl

theorem detectHeuristic_safeguardRequired (scan : ScanStats) :
    (detectHeuristic scan).safeguardRequired = (autoTypeOf scan == "brownfield") := rfl

theorem detectHeuristic_confidence (scan : ScanStats) :
    (detectHeuristic scan).confidence = confidenceOf scan := rfl

theorem autoTypeOf_cases (scan : ScanStats) :
    autoTypeOf scan = "greenfield" ∨ autoTypeOf scan = "ongoing" ∨
      autoTypeOf scan = "brownfield" := by
  unfold autoTypeOf
  by_cases h1 : 20 ≤ scan.gitCommits ∨ 2 ≤ scan.configHits.length ∨ 120 ≤ scan.fileCount
  · rw [if_pos h1]; tauto
  · rw [if_neg h1]
    by_cases hb : (scan.hasSpecify || scan.hasSpecsDir) = true
    · rw [if_pos hb]
      rw [if_neg (by simp)]
      tauto
    · rw [if_neg hb]
      by_cases h2 : 1 ≤ scan.gitCommits ∨ 1 ≤ scan.configHits.length ∨ 12 ≤ scan.fileCount
      · rw [if_pos ⟨by decide, h2⟩]; tauto
      · rw [if_neg (by tauto)]; tauto

theorem confidenceOf_nonneg (scan : ScanStats) : 0 ≤ confidenceOf scan := by
  unfold confidenceOf
  rcases autoTypeOf_cases scan with h | h | h <;> rw [h]
  · rw [if_pos rfl]
    split_ifs <;> norm_num
  · rw [if_neg (by decide), if_pos rfl]
    refine le_min ?_ (by norm_num)
    have c1 : (0:ℚ) ≤ ((min scan.gitCommits 4 : ℕ) : ℚ) := by positivity
    have c2 : (0:ℚ) ≤ ((min scan.configHits.length 2 : ℕ) : ℚ) := by positivity
    have c3 : (0:ℚ) ≤ (if scan.hasSpecify then (1:ℚ)/10 else 0) := by
      split_ifs <;> norm_num
    nlinarith
  · rw [if_neg (by decide), if_neg (by decide), if_pos rfl]
    refine le_min ?_ (by norm_num)
    have c1 : (0:ℚ) ≤ (if 20 ≤ scan.gitCommits then (1:ℚ)/10 else 0) := by
      split_ifs <;> norm_num
    have c2 : (0:ℚ) ≤ (if 2 ≤ scan.configHits.length then (1:ℚ)/10 else 0) := by
      split_ifs <;> norm_num
    have c3 : (0:ℚ) ≤ (if 120 ≤ scan.fileCount then (5:ℚ)/100 else 0) := by
      split_ifs <;> norm_num
    nlinarith

theorem confidenceOf_le_one (scan : ScanStats) : confidenceOf scan ≤ 1 := by
  unfold confidenceOf
  rcases autoTypeOf_cases scan with h | h | h <;> rw [h]
  · rw [if_pos rfl]
    split_ifs <;> norm_num
  · rw [if_neg (by decide), if_pos rfl]
    exact le_trans (min_le_right _ _) (by norm_num)
  · rw [if_neg (by decide), if_neg (by decide), if_pos rfl]
    exact le_trans (min_le_right _ _) (by norm_num)

theorem round_centi_bounds (q : ℚ) (h0 : 0 ≤ q) (h1 : q ≤ 1) :
    0 ≤ round (q * 100) ∧ round (q * 100) ≤ 100 := by
  rw [round_eq]
  constructor
  · exact Int.le_floor.mpr (by push_cast; linarith)
  · have h : ⌊q * 100 + 1/2⌋ < 101 := Int.floor_lt.mpr (by push_cast; linarith)
    omega

/-! ## C1 — safeguard_required forces brownfield -/

/-- C1: for every directory and every override argument, a verdict returned by
`classify_project_state` has `safeguard_required = true` only if its final
`project_type` is `"brownfield"`, in the heuristic path and the override path
alike. -/
theorem classify_safeguard_implies_brownfield (pe : Bool) (scan : ScanStats) (ov : String)
    (v : Verdict) (hv : classifyProjectState pe scan ov = Except.ok v) :
    v.safeguardRequired = true → v.projectType = "brownfield" := by
  unfold classifyProjectState at hv
  split at hv
  · injection hv with hv
    subst hv
    intro hs
    rw [finalizeVerdict_safeguardRequired] at hs
    rw [finalizeVerdict_projectType]
    by_cases happ : (normalizeOverride ov != "auto") = true
    · rw [if_pos happ] at hs ⊢
      rw [applyOverride_safeguardRequired] at hs
      rw [applyOverride_projectType]
      exact eq_of_beq hs
    · rw [if_neg happ] at hs ⊢
      cases pe with
      | false =>
        rw [if_neg (by decide : ¬ false = true)] at hs
        simp [detectAbsent] at hs
      | true =>
        rw [if_pos rfl] at hs ⊢
        rw [detectHeuristic_safeguardRequired] at hs
        rw [detectHeuristic_projectType]
        exact eq_of_beq hs
  · exact absurd hv (by simp)

theorem classify_safeguard_implies_brownfield_witness :
    (verdictOf true brownScan "auto").projectType = "brownfield" :=
  classify_safeguard_implies_brownfield true brownScan "auto"
    (verdictOf true brownScan "auto") rfl rfl

/-! ## C2 — brownfield override round-trip -/

/-- C2: for every directory (existing or not) and every scan result, classifying
with `override = "brownfield"` yields `project_type = "brownfield"`,
`confidence_score = 99` and `override_applied = true`. -/
theorem classify_override_brownfield_roundtrip (pe : Bool) (scan : ScanStats) :
    ∃ v, classifyProjectState pe scan "brownfield" = Except.ok v ∧
      v.projectType = "brownfield" ∧ v.confidenceScore = 99 ∧ v.overrideApplied = true := by
  have hnorm : normalizeOverride "brownfield" = "brownfield" := by decide
  unfold classifyProjectState
  rw [hnorm]
  rw [if_pos (show ("brownfield" : String) ∈ VALID_PROJECT_TYPES by decide)]
  rw [if_pos (show (("brownfield" : String) != "auto") = true by decide)]
  refine ⟨_, rfl, ?_, ?_, ?_⟩
  · rw [finalizeVerdict_projectType, applyOverride_projectType]
  · rw [finalizeVerdict_confidenceScore, applyOverride_confidence]
    rw [show (99 : ℚ)/100 * 100 = ((99 : ℕ) : ℚ) by norm_num, round_natCast]
    norm_num
  · rw [finalizeVerdict_overrideApplied]
    decide

/-! ## C4 — confidence score derivation and bounds -/

/-- C4: every verdict produced by `classify_project_state` has
`confidence_score = round(confidence * 100)`, an integer in `[0, 100]`. -/
theorem classify_confidence_score_bounds (pe : Bool) (scan : ScanStats) (ov : String)
    (v : Verdict) (hv : classifyProjectState pe scan ov = Except.ok v) :
    v.confidenceScore = round (v.confidence * 100) ∧
      0 ≤ v.confidenceScore ∧ v.confidenceScore ≤ 100 := by
  unfold classifyProjectState at hv
  split at hv
  · injection hv with hv
    subst hv
    rw [finalizeVerdict_confidenceScore, finalizeVerdict_confidence]
    refine ⟨rfl, ?_⟩
    by_cases happ : (normalizeOverride ov != "auto") = true
    · rw [if_pos happ, applyOverride_confidence]
      exact round_centi_bounds _ (by norm_num) (by norm_num)
    · rw [if_neg happ]
      cases pe with
      | false =>
        rw [if_neg (by decide : ¬ false = true)]
        rw [show detectAbsent.confidence = 98/100 from rfl]
        exact round_centi_bounds _ (by norm_num) (by norm_num)
      | true =>
        rw [if_pos rfl, detectHeuristic_confidence]
        exact round_centi_bounds _ (confidenceOf_nonneg scan) (confidenceOf_le_one scan)
  · exact absurd hv (by simp)

theorem classify_confidence_score_bounds_witness :
    (verdictOf true emptyScan "auto").confidenceScore =
      round ((verdictOf true emptyScan "auto").confidence * 100) ∧
    0 ≤ (verdictOf true emptyScan "auto").confidenceScore ∧
      (verdictOf true emptyScan "auto").confidenceScore ≤ 100 :=
  classify_confidence_score_bounds true emptyScan "auto" (verdictOf true emptyScan "auto") rfl

/-! ## C9 — override_origin records the normalized, not the raw, override -/

/-- C9 counterexample: the claim that `override_origin` equals the raw override
string exactly as supplied is false: classifying with `override = "Brownfield"`
stores the lowercased `"brownfield"`. -/
theorem override_origin_not_raw :
    ¬ ∀ (pe : Bool) (scan : ScanStats) (ov : String) (v : Verdict),
        classifyProjectState pe scan ov = Except.ok v → v.overrideApplied = true →
        v.overrideOrigin = some ov := by
  intro h
  have h1 := h false emptyScan "Brownfield" (verdictOf false emptyScan "Brownfield") rfl rfl
  have h2 : (verdictOf false emptyScan "Brownfield").overrideOrigin = some "brownfield" := rfl
  rw [h2] at h1
  exact absurd h1 (by decide)

/-- C9 (amended): whenever an override is applied, `override_origin` equals the
normalized override string — `(override or "auto").lower()` — rather than the raw
string as supplied by the caller. -/
theorem override_origin_is_normalized (pe : Bool) (scan : ScanStats) (ov : String)
    (v : Verdict) (hv : classifyProjectState pe scan ov = Except.ok v)
    (ha : v.overrideApplied = true) :
    v.overrideOrigin = some (normalizeOverride ov) := by
  unfold classifyProjectState at hv
  split at hv
  · injection hv with hv
    subst hv
    rw [finalizeVerdict_overrideApplied] at ha
    rw [finalizeVerdict_overrideOrigin, if_pos ha, applyOverride_overrideOrigin]
  · exact absurd hv (by simp)

theorem override_origin_is_normalized_witness :
    (verdictOf false emptyScan "Brownfield").overrideOrigin =
      some (normalizeOverride "Brownfield") :=
  override_origin_is_normalized false emptyScan "Brownfield"
    (verdictOf false emptyScan "Brownfield") rfl rfl

/-! ## C5 — the scan cap truncates file_count -/

theorem scanDirFiles_fileCount (fs : List String) (acc : ScanAcc) (rel : List String)
    (h : acc.fileCount < MAX_CLASSIFICATION_SCAN) :
    (scanDirFiles acc rel fs).fileCount =
      min (acc.fileCount + fs.length) MAX_CLASSIFICATION_SCAN := by
  induction fs generalizing acc with
  | nil =>
    rw [scanDirFiles]
    simp only [List.length_nil, Nat.add_zero]
    omega
  | cons name rest ih =>
    simp only [scanDirFiles]
    split
    · dsimp only
      simp only [List.length_cons]
      omega
    · rename_i hc
      rw [ih _ (by dsimp only at hc ⊢; omega)]
      dsimp only
      simp only [List.length_cons]
      omega

theorem walkDirs_fileCount (dirs : List (List String × List String)) (acc : ScanAcc)
    (h : acc.fileCount < MAX_CLASSIFICATION_SCAN) :
    (walkDirs acc dirs).fileCount =
      min (acc.fileCount + (dirs.map fun p => p.2.length).sum) MAX_CLASSIFICATION_SCAN := by
  induction dirs generalizing acc with
  | nil =>
    rw [walkDirs]
    simp only [List.map_nil, List.sum_nil]
    omega
  | cons d rest ih =>
    obtain ⟨rel, files⟩ := d
    simp only [walkDirs]
    have hs := scanDirFiles_fileCount files acc rel h
    split
    · rename_i hc
      rw [hs] at hc ⊢
      simp only [List.map_cons, List.sum_cons]
      omega
    · rename_i hc
      rw [hs] at hc
      rw [ih _ (by omega), hs]
      simp only [List.map_cons, List.sum_cons]
      omega

/-- C5: for every directory tree whose pruned walk visits 5000 plain files (none
inside excluded subdirectories), `_scan_project_state` reports `file_count = 800`
exactly: counting stops at the hard cap and truncates the reported count. -/
theorem scan_cap_truncates (t : DirTree) (gc : Nat) (h : walkFileTotal t = 5000) :
    (scanProjectState t gc).fileCount = 800 := by
  have hw := walkDirs_fileCount (walkOrder [] t) (ScanAcc.mk 0 [] []) (by decide)
  unfold scanProjectState
  dsimp only
  rw [hw]
  unfold walkFileTotal at h
  rw [h]
  decide

theorem scan_cap_truncates_witness :
    (scanProjectState flatTree5000 0).fileCount = 800 :=
  scan_cap_truncates flatTree5000 0 (by
    unfold walkFileTotal flatTree5000
    simp only [walkOrder, walkSubs, List.map_cons, List.map_nil, List.sum_cons,
      List.sum_nil, List.length_replicate]
    omega)

/-! ## C6 — a blank detail update never erases the stored detail -/

theorem trackerAdd_key_mem (steps : List TrackedStep) (key label : String) :
    key ∈ (trackerAdd steps key label).map TrackedStep.key := by
  unfold trackerAdd
  split
  · assumption
  · simp

theorem trackerUpdate_twice (l : List TrackedStep) (key st1 st2 d : String) (hd : d ≠ "")
    (hmem : key ∈ l.map TrackedStep.key) :
    (∃ lab, (trackerUpdate (trackerUpdate l key st1 d) key st2 "").find? (fun s => s.key == key)
        = some ⟨key, lab, st2, d⟩) ∧
    List.Forall₂ (fun a b => b.key = a.key ∧ b.label = a.label ∧ b.detail = a.detail ∧
        (a.key ≠ key → b.status = a.status))
      (trackerUpdate l key st1 d) (trackerUpdate (trackerUpdate l key st1 d) key st2 "") := by
  induction l with
  | nil => simp at hmem
  | cons s rest ih =>
    by_cases hk : s.key = key
    · constructor
      · refine ⟨s.label, ?_⟩
        simp [trackerUpdate, hk, hd]
      · simp only [trackerUpdate, hk, hd]
        simp only [if_pos rfl, ne_eq, not_true_eq_false, if_false, if_pos (show ¬ False from not_false), if_neg]
        refine List.Forall₂.cons ⟨rfl, rfl, rfl, fun h => absurd rfl h⟩ ?_
        exact List.forall₂_same.mpr fun x _ => ⟨rfl, rfl, rfl, fun _ => rfl⟩
    · have hmem' : key ∈ rest.map TrackedStep.key := by
        rcases (by simpa using hmem : key = s.key ∨ ∃ a ∈ rest, a.key = key) with h | h
        · exact absurd h.symm hk
        · simpa using h
      obtain ⟨⟨lab, hfind⟩, hfar⟩ := ih hmem'
      constructor
      · refine ⟨lab, ?_⟩
        simp only [trackerUpdate, if_neg hk]
        rw [List.find?_cons_of_neg _ (by simp [hk])]
        exact hfind
      · simp only [trackerUpdate, if_neg hk]
        exact List.Forall₂.cons ⟨rfl, rfl, rfl, fun _ => rfl⟩ hfar

/-- C6: after `add(key, label)` and `start(key, "msg")`, calling `complete(key, "")`
sets the step's status to `"done"` while leaving `detail = "msg"` — a blank update
never erases the stored detail — and changes no field of any step other than that
step's status. -/
theorem tracker_blank_complete_preserves_detail (steps : List TrackedStep) (key label : String) :
    (∀ s, (trackerComplete (trackerStart (trackerAdd steps key label) key "msg") key "").find?
        (fun s => s.key == key) = some s → s.status = "done" ∧ s.detail = "msg") ∧
    ((trackerComplete (trackerStart (trackerAdd steps key label) key "msg") key "").find?
        (fun s => s.key == key)).isSome = true ∧
    List.Forall₂ (fun a b => b.key = a.key ∧ b.label = a.label ∧ b.detail = a.detail ∧
        (a.key ≠ key → b.status = a.status))
      (trackerStart (trackerAdd steps key label) key "msg")
      (trackerComplete (trackerStart (trackerAdd steps key label) key "msg") key "") := by
  have hmem := trackerAdd_key_mem steps key label
  obtain ⟨⟨lab, hfind⟩, hfar⟩ :=
    trackerUpdate_twice (trackerAdd steps key label) key "running" "done" "msg" (by decide) hmem
  refine ⟨?_, ?_, hfar⟩
  · intro s hs
    simp only [trackerStart, trackerComplete] at hs
    rw [hfind] at hs
    injection hs with hs
    subst hs
    exact ⟨rfl, rfl⟩
  · simp only [trackerStart, trackerComplete]
    rw [hfind]
    rfl

theorem tracker_blank_complete_witness :
    ((trackerComplete (trackerStart (trackerAdd [] "fetch" "Fetch release") "fetch" "msg")
        "fetch" "").find? (fun s => s.key == "fetch")).isSome = true :=
  (tracker_blank_complete_preserves_detail [] "fetch" "Fetch release").2.1

/-! ## C8 — permission mirroring in ensure_executable_scripts -/

theorem and_two_pow_ne_zero_iff (x i : ℕ) : x &&& 2 ^ i ≠ 0 ↔ x.testBit i = true := by
  constructor
  · intro h
    by_contra hb
    apply h
    apply Nat.eq_of_testBit_eq
    intro j
    rw [Nat.testBit_and, Nat.zero_testBit, Nat.testBit_two_pow]
    by_cases hij : i = j
    · subst hij
      simp only [Bool.not_eq_true] at hb
      simp [hb]
    · simp [hij]
  · intro h hz
    have h2 := congrArg (fun n => n.testBit i) hz
    simp only [Nat.testBit_and, Nat.testBit_two_pow, Nat.zero_testBit] at h2
    rw [h] at h2
    simp at h2

theorem newScriptMode_testBit_six (mode : ℕ) : (newScriptMode mode).testBit 6 = true := by
  have key : ∀ m : ℕ, (if m &&& 0o100 = 0 then m ||| 0o100 else m).testBit 6 = true := by
    intro m
    by_cases h : m &&& 0o100 = 0
    · rw [if_pos h, Nat.testBit_or]
      simp [show Nat.testBit 0o100 6 = true from rfl]
    · rw [if_neg h]
      exact (and_two_pow_ne_zero_iff m 6).mp (by rw [show (2:ℕ)^6 = 0o100 by norm_num]; exact h)
  simp only [newScriptMode]
  exact key _

theorem newScriptMode_testBit_three (mode : ℕ) (h : mode &&& 0o040 ≠ 0) :
    (newScriptMode mode).testBit 3 = true := by
  have hfin : ∀ m : ℕ, m.testBit 3 = true →
      (if m &&& 0o100 = 0 then m ||| 0o100 else m).testBit 3 = true := by
    intro m hm
    split
    · rw [Nat.testBit_or, hm]; simp
    · exact hm
  have hone : ∀ m : ℕ, m.testBit 3 = true →
      (if mode &&& 0o004 ≠ 0 then m ||| 0o001 else m).testBit 3 = true := by
    intro m hm
    split
    · rw [Nat.testBit_or, hm]; simp
    · exact hm
  simp only [newScriptMode]
  rw [if_pos h]
  apply hfin
  apply hone
  rw [Nat.testBit_or]
  simp [show Nat.testBit 0o010 3 = true from rfl]

theorem newScriptMode_testBit_zero (mode : ℕ) (h : mode &&& 0o004 ≠ 0) :
    (newScriptMode mode).testBit 0 = true := by
  have hfin : ∀ m : ℕ, m.testBit 0 = true →
      (if m &&& 0o100 = 0 then m ||| 0o100 else m).testBit 0 = true := by
    intro m hm
    split
    · rw [Nat.testBit_or, hm]; simp
    · exact hm
  simp only [newScriptMode]
  rw [if_pos h]
  apply hfin
  rw [Nat.testBit_or]
  simp [show Nat.testBit 0o001 0 = true from rfl]

theorem updatedCount_eq_countP (files : List ScriptFile) :
    updatedCount files = files.countP scriptNeedsChmod := by
  have aux : ∀ (l : List ScriptFile) (n : Nat),
      l.foldl (fun n f => if scriptNeedsChmod f then n + 1 else n) n
        = n + l.countP scriptNeedsChmod := by
    intro l
    induction l with
    | nil => intro n; simp
    | cons f rest ih =>
      intro n
      rw [List.foldl_cons, List.countP_cons]
      by_cases h : scriptNeedsChmod f = true
      · rw [if_pos h, ih]
        simp [h]
        omega
      · rw [if_neg h, ih]
        simp [h]
  unfold updatedCount
  rw [aux files 0]
  omega

/-- C8 counterexample: a regular, non-symlink file with a shebang and no execute
bit whose name does not end in `.sh` (here `run.txt`, mode `0o644`) satisfies every
hypothesis of the claim, yet `ensure_executable_scripts` neither rewrites its mode
(owner-execute stays clear) nor counts it in `updated`, because the
`rglob("*.sh")` walk never yields it. -/
theorem ensure_exec_skips_non_sh :
    txtShebangFile.isSymlink = false ∧ txtShebangFile.isFile = true ∧
    txtShebangFile.content.take 2 = shebangBytes ∧ txtShebangFile.mode &&& 0o111 = 0 ∧
    updatedCount [txtShebangFile] = 0 ∧ (chmodResult txtShebangFile).mode &&& 0o100 = 0 := by
  decide

/-- C8 (amended): for every regular non-symlink `*.sh` file under the scripts
directory that begins with the shebang bytes and has no execute bit set, the new
mode mirrors each set read bit to the corresponding execute bit, owner-execute is
set afterward in all cases, and the file is counted in the `updated` total. -/
theorem chmod_sh_mirrors_read_bits (f : ScriptFile)
    (hsh : strEndsWith f.name ".sh" = true)
    (hsym : f.isSymlink = false) (hfile : f.isFile = true)
    (hbang : f.content.take 2 = shebangBytes)
    (hexec : f.mode &&& 0o111 = 0) :
    ((f.mode &&& 0o400 ≠ 0 → (chmodResult f).mode &&& 0o100 ≠ 0) ∧
     (f.mode &&& 0o040 ≠ 0 → (chmodResult f).mode &&& 0o010 ≠ 0) ∧
     (f.mode &&& 0o004 ≠ 0 → (chmodResult f).mode &&& 0o001 ≠ 0) ∧
     (chmodResult f).mode &&& 0o100 ≠ 0) ∧
    ∀ pre post, updatedCount (pre ++ f :: post) = updatedCount (pre ++ post) + 1 := by
  have hneeds : scriptNeedsChmod f = true := by
    simp [scriptNeedsChmod, hsh, hsym, hfile, hbang, hexec]
  have hmode : (chmodResult f).mode = newScriptMode f.mode := by
    simp [chmodResult, hneeds]
  constructor
  · refine ⟨?_, ?_, ?_, ?_⟩
    · intro _
      rw [hmode, show (0o100:ℕ) = 2^6 by norm_num]
      exact (and_two_pow_ne_zero_iff _ 6).mpr (newScriptMode_testBit_six f.mode)
    · intro h
      rw [hmode, show (0o010:ℕ) = 2^3 by norm_num]
      exact (and_two_pow_ne_zero_iff _ 3).mpr (newScriptMode_testBit_three f.mode h)
    · intro h
      rw [hmode, show (0o001:ℕ) = 2^0 by norm_num]
      exact (and_two_pow_ne_zero_iff _ 0).mpr (newScriptMode_testBit_zero f.mode h)
    · rw [hmode, show (0o100:ℕ) = 2^6 by norm_num]
      exact (and_two_pow_ne_zero_iff _ 6).mpr (newScriptMode_testBit_six f.mode)
  · intro pre post
    rw [updatedCount_eq_countP, updatedCount_eq_countP]
    rw [List.countP_append, List.countP_append, List.countP_cons]
    simp [hneeds]
    omega

theorem chmod_sh_mirrors_read_bits_witness :
    ((shShebangFile.mode &&& 0o400 ≠ 0 → (chmodResult shShebangFile).mode &&& 0o100 ≠ 0) ∧
     (shShebangFile.mode &&& 0o040 ≠ 0 → (chmodResult shShebangFile).mode &&& 0o010 ≠ 0) ∧
     (shShebangFile.mode &&& 0o004 ≠ 0 → (chmodResult shShebangFile).mode &&& 0o001 ≠ 0) ∧
     (chmodResult shShebangFile).mode &&& 0o100 ≠ 0) ∧
    ∀ pre post, updatedCount (pre ++ shShebangFile :: post) = updatedCount (pre ++ post) + 1 :=
  chmod_sh_mirrors_read_bits shShebangFile (by decide) rfl rfl (by decide) (by decide)

/-! ## C10 — whitespace-only explicit token -/

/-- C10: a non-empty, whitespace-only explicit token makes `_github_token` return
`None` and `_github_auth_headers` attach no Authorization header, for every value
of the `GH_TOKEN` / `GITHUB_TOKEN` environment variables: the environment fallback
is never consulted because the whitespace string is truthy. -/
theorem github_token_whitespace_only (cli gh1 gh2 : String)
    (h1 : cli ≠ "") (h2 : pyStrip cli = "") :
    githubToken cli gh1 gh2 = none ∧ githubAuthHeaders cli gh1 gh2 = [] := by
  have hnone : githubToken cli gh1 gh2 = none := by
    simp [githubToken, h1, h2]
  exact ⟨hnone, by simp [githubAuthHeaders, hnone]⟩

theorem github_token_whitespace_only_witness :
    githubToken " " "envtok" "envtok2" = none ∧
      githubAuthHeaders " " "envtok" "envtok2" = [] :=
  github_token_whitespace_only " " "envtok" "envtok2" (by decide) (by decide)

/-! ## C7 — release-asset selection -/

/-- C7: with zero matching assets the selection yields `none` (the `typer.Exit`
NotFound path); with one or more matches the first match in listing order is
selected, ambiguous lists are not rejected. -/
theorem select_asset_zero_or_first (assets : List ReleaseAsset) (ai st : String) :
    (matchingAssets assets ai st = [] → selectTemplateAsset assets ai st = none) ∧
    ∀ a rest, matchingAssets assets ai st = a :: rest →
      selectTemplateAsset assets ai st = some a := by
  constructor
  · intro h
    simp [selectTemplateAsset, h]
  · intro a rest h
    simp [selectTemplateAsset, h]

theorem select_asset_zero_or_first_witness :
    matchingAssets sampleAssets "claude" "sh" =
      [⟨"spec-kit-template-claude-sh-v1.zip", "u1", 2⟩,
       ⟨"spec-kit-template-claude-sh-v2.zip", "u2", 3⟩] ∧
    selectTemplateAsset sampleAssets "claude" "sh" =
      some ⟨"spec-kit-template-claude-sh-v1.zip", "u1", 2⟩ := by
  have hm : matchingAssets sampleAssets "claude" "sh" =
      [⟨"spec-kit-template-claude-sh-v1.zip", "u1", 2⟩,
       ⟨"spec-kit-template-claude-sh-v2.zip", "u2", 3⟩] := by decide
  exact ⟨hm, (select_asset_zero_or_first sampleAssets "claude" "sh").2 _ _ hm⟩

/-! ## C3 — extraction failure on a fresh target -/

/-- C3: for a fresh (non-current-directory) target, any extraction failure removes
the partially created target directory entirely before the error propagates. -/
theorem extract_failure_fresh_removes_target
    (attempt : Except (String × FsState) FsState) (e : String) (fs : FsState)
    (h : attempt = Except.error (e, fs)) :
    (extractTemplatePhase false attempt).1 = some e ∧
    (extractTemplatePhase false attempt).2.targetExists = false := by
  subst h
  obtain ⟨t, z⟩ := fs
  cases t <;> cases z <;> exact ⟨rfl, rfl⟩

theorem extract_failure_fresh_removes_target_witness :
    (extractTemplatePhase false (Except.error ("disk full", FsState.mk true true))).1
      = some "disk full" ∧
    (extractTemplatePhase false (Except.error ("disk full", FsState.mk true true))).2.targetExists
      = false :=
  extract_failure_fresh_removes_target _ "disk full" (FsState.mk true true) rfl

end SpecKit
